import Mathlib

/-!
Shallow embedding of the error-protection core of the `ui` repository
(packages/shadcn/src/error-protection): the exception classifiers, the
exception log with its eviction policy, the handler registry and
interceptor dispatch, and the resilient request engine `SafeFetch.fetch`.

JavaScript strings are modelled as Lean `String`s, with substring search
(`String.prototype.includes`) implemented over the character list.
JavaScript `Error` values are modelled as a record of their constructor
identity, declared name and message.  Asynchronous throwing computations
are modelled in the `Except` monad: a `.error` value is a rejection that
reaches the enclosing `await`; `try`/`catch` blocks of the source are
compiled to matches on that `Except` value, so that a top-level `.error`
is an exception escaping to the caller.
-/

namespace UiSpec

/-- Test whether `pat` is an initial segment of `s`. -/
def leadsWith : List Char → List Char → Bool
  | [], _ => true
  | _ :: _, [] => false
  | a :: as, b :: bs => if a = b then leadsWith as bs else false

/-- Test whether `pat` occurs contiguously inside `s`; this is
`String.prototype.includes` on character lists. -/
def hasSub (pat : List Char) : List Char → Bool
  | [] => leadsWith pat []
  | c :: rest => leadsWith pat (c :: rest) || hasSub pat rest

/-- Model of the JavaScript expression `s.includes(pat)`. -/
def strHas (s pat : String) : Bool := hasSub pat.data s.data

/-- The closed enumeration of exception kinds (exception-types.ts, `ExceptionType`). -/
inductive ExceptionType where
  | NULL_POINTER
  | TYPE_ERROR
  | RANGE_ERROR
  | SYNTAX_ERROR
  | REFERENCE_ERROR
  | NETWORK_ERROR
  | DATA_ERROR
  | RESOURCE_ERROR
  | GENERAL_ERROR
deriving DecidableEq, Repr

/-- A JavaScript `Error` value as the classifiers and registries observe it:
its constructor identity (`error.constructor`, used as a registry key), its
declared `name` and its `message`. -/
structure JsError where
  ctor : String
  name : String
  message : String
deriving DecidableEq, Repr

/-- The log's classifier, `ExceptionLogger.determineExceptionType`
(exception-logger module).  Note the `TypeError` branch: when neither inner
message test matches, control leaves the whole chain and the function
returns `GENERAL_ERROR`. -/
def determineExceptionType (e : JsError) : ExceptionType :=
  if e.name = "TypeError" then
    if strHas e.message "null" || strHas e.message "undefined" then .NULL_POINTER
    else if strHas e.message "is not a function" then .TYPE_ERROR
    else .GENERAL_ERROR
  else if e.name = "RangeError" then .RANGE_ERROR
  else if e.name = "SyntaxError" then .SYNTAX_ERROR
  else if e.name = "ReferenceError" then .REFERENCE_ERROR
  else if e.name = "AbortError" then .NETWORK_ERROR
  else if strHas e.message "fetch" || strHas e.message "network" || strHas e.message "timeout" then
    .NETWORK_ERROR
  else if strHas e.message "JSON" then .DATA_ERROR
  else .GENERAL_ERROR

/-- The registry's classifier, `ExceptionRegistry.mapErrorToExceptionType`
(exception-registry module).  Identical to the log's classifier except for the
additional memory/DOM test before the catch-all. -/
def mapErrorToExceptionType (e : JsError) : ExceptionType :=
  if e.name = "TypeError" then
    if strHas e.message "null" || strHas e.message "undefined" then .NULL_POINTER
    else if strHas e.message "is not a function" then .TYPE_ERROR
    else .GENERAL_ERROR
  else if e.name = "RangeError" then .RANGE_ERROR
  else if e.name = "SyntaxError" then .SYNTAX_ERROR
  else if e.name = "ReferenceError" then .REFERENCE_ERROR
  else if e.name = "AbortError" then .NETWORK_ERROR
  else if strHas e.message "fetch" || strHas e.message "network" || strHas e.message "timeout" then
    .NETWORK_ERROR
  else if strHas e.message "JSON" then .DATA_ERROR
  else if strHas e.message "memory" || strHas e.message "DOM" then .RESOURCE_ERROR
  else .GENERAL_ERROR

/-- The condition under which the registry's classifier actually evaluates its
memory/DOM test: every name-based branch declined (including the whole
`TypeError` branch, which swallows unmatched `TypeError`s) and every earlier
message-substring test declined. -/
def reachesRule9 (e : JsError) : Bool :=
  !(decide (e.name = "TypeError")) && !(decide (e.name = "RangeError")) &&
  !(decide (e.name = "SyntaxError")) && !(decide (e.name = "ReferenceError")) &&
  !(decide (e.name = "AbortError")) &&
  !(strHas e.message "fetch") && !(strHas e.message "network") &&
  !(strHas e.message "timeout") && !(strHas e.message "JSON")

/-- Rules 1-8 of the specification's classifier rule list, read literally as
an unordered family of match conditions (rule 1: type-mismatch name and a
null/undefined message; rule 2: type-mismatch name and an
is-not-a-function message; rules 3-6: name tests; rules 7-8: message
substring tests). -/
def matchedByRules1to8 (e : JsError) : Bool :=
  (decide (e.name = "TypeError") && (strHas e.message "null" || strHas e.message "undefined")) ||
  (decide (e.name = "TypeError") && strHas e.message "is not a function") ||
  decide (e.name = "RangeError") || decide (e.name = "SyntaxError") ||
  decide (e.name = "ReferenceError") || decide (e.name = "AbortError") ||
  strHas e.message "fetch" || strHas e.message "network" || strHas e.message "timeout" ||
  strHas e.message "JSON"

namespace ExceptionLogger

/-- One record of the exception log (`LogEntry` in the source).  The `id`,
`timestamp` and `environment` fields of the source are ambient
nondeterminism (UUID, clock, user agent) and are not represented; the
eviction policy and classification tag do not depend on them. -/
structure LogEntry where
  error : JsError
  type : ExceptionType
  context : String
deriving DecidableEq, Repr

/-- The logger's mutable state: the entry buffer and the cap. -/
structure State where
  logEntries : List LogEntry
  maxLogEntries : Nat
deriving Repr

/-- The initial logger state: empty buffer, cap `maxLogEntries = 1000`. -/
def initState : State := { logEntries := [], maxLogEntries := 1000 }

/-- Model of `ExceptionLogger.log`: build the entry (tagging it with the log
classifier's kind), push it, then evict the oldest entry when the cap is
exceeded.  Console output and the error-center event do not touch the
buffer and are not represented. -/
def log (st : State) (error : JsError) (context : String) : State :=
  let entry : LogEntry := ⟨error, determineExceptionType error, context⟩
  let entries := st.logEntries ++ [entry]
  { st with logEntries := if entries.length > st.maxLogEntries then entries.drop 1 else entries }

/-- Writing a list of `(error, context)` pairs in order. -/
def logAll (st : State) (ps : List (JsError × String)) : State :=
  ps.foldl (fun s p => log s p.1 p.2) st

/-- The entries a list of writes produces, in write order. -/
def entriesOf (ps : List (JsError × String)) : List LogEntry :=
  ps.map fun p => ⟨p.1, determineExceptionType p.1, p.2⟩

end ExceptionLogger

/-- A registered handler: an identity (so invocations can be observed) and
its behaviour, which either returns normally (`none`) or raises the given
error when invoked with the given arguments. -/
structure HandlerFn where
  hid : Nat
  throwsOn : JsError → String → Option Nat → Option JsError

/-- A registry entry (`ExceptionHandlerEntry`): the handler plus its severity tag. -/
structure ExceptionHandlerEntry where
  handler : HandlerFn
  severity : String

/-- A registry key: either an exception constructor (`Function`) or an
`ExceptionType` enumeration value.  The two key spaces never merge. -/
inductive RegKey where
  | ctorKey (c : String)
  | typeKey (t : ExceptionType)
deriving DecidableEq

/-- The registry's `Map` of handlers, as an association list in insertion order. -/
abbrev RegMap := List (RegKey × ExceptionHandlerEntry)

/-- Model of `Map.prototype.set`: overwrite the value under an existing key, else append. -/
def regSet (m : RegMap) (k : RegKey) (v : ExceptionHandlerEntry) : RegMap :=
  if (List.find? (fun p => decide (p.1 = k)) m).isSome then
    List.map (fun p => if p.1 = k then (k, v) else p) m
  else
    m ++ [(k, v)]

/-- Model of `Map.prototype.get`. -/
def regGet (m : RegMap) (k : RegKey) : Option ExceptionHandlerEntry :=
  (List.find? (fun p => decide (p.1 = k)) m).map (·.2)

/-- Model of `ExceptionRegistry.getHandler`. -/
def getHandler (m : RegMap) (k : RegKey) : Option HandlerFn :=
  (regGet m k).map (·.handler)

/-- Stringification of an error inside a template literal: `"Name: message"`. -/
def errString (e : JsError) : String := e.name ++ ": " ++ e.message

/-- The wrapper built in the handler-failure catch clause:
`new Error("Custom handler failed: " + handlerError)`. -/
def wrapHandlerError (he : JsError) : JsError :=
  ⟨"Error", "Error", "Custom handler failed: " ++ errString he⟩

/-- The extra-info payload of a log write: either the plain pass-through
`extraInfo`, or the `{originalError, originalContext, originalExtraInfo}`
payload of a handler-failure record. -/
inductive LogExtra where
  | plain (extraInfo : Option Nat)
  | hf (originalError : JsError) (originalContext : String) (originalExtraInfo : Option Nat)
deriving DecidableEq, Repr

/-- One call made to `ExceptionLogger.log` during dispatch. -/
structure LogEvent where
  err : JsError
  context : String
  extra : LogExtra
deriving DecidableEq, Repr

/-- Invoking a handler: a rejection/throw of the handler body becomes an
`Except.error` at the call site. -/
def invokeHandler (h : HandlerFn) (e : JsError) (context : String) (extraInfo : Option Nat) :
    Except JsError Unit :=
  match h.throwsOn e context extraInfo with
  | none => .ok ()
  | some he => .error he

/-- Model of `ExceptionRegistry.handleException`: look up by the error's constructor;
if absent, classify with `mapErrorToExceptionType` and look up by the kind.
A found handler runs inside a guard whose catch writes one
`handler-failure` record.  The result lists the invoked handler ids and the
log writes; a top-level `.error` would be an exception escaping to the
caller of `handleException`. -/
def registryHandleException (m : RegMap) (error : JsError) (context : String)
    (extraInfo : Option Nat) : Except JsError (List Nat × List LogEvent) :=
  let handler := getHandler m (.ctorKey error.ctor)
  let handler := match handler with
    | none => getHandler m (.typeKey (mapErrorToExceptionType error))
    | some h => some h
  match handler with
  | some h =>
    match invokeHandler h error context extraInfo with
    | .ok _ => .ok ([h.hid], [])
    | .error handlerError =>
      .ok ([h.hid],
        [⟨wrapHandlerError handlerError, "handler-failure", .hf error context extraInfo⟩])
  | none => .ok ([], [])

/-- Model of `ExceptionInterceptor.handleException`: look up by the error's
constructor only.  A found handler that succeeds makes the method `return`
at once, with no log write; a found handler that throws is caught, one
`handler-failure` record is written, and control falls through to the
default write of the original exception; with no handler the original
exception is written directly. -/
def interceptorHandleException (m : RegMap) (error : JsError) (context : String)
    (extraInfo : Option Nat) : Except JsError (List Nat × List LogEvent) :=
  match getHandler m (.ctorKey error.ctor) with
  | some h =>
    match invokeHandler h error context extraInfo with
    | .ok _ => .ok ([h.hid], [])
    | .error handlerError =>
      .ok ([h.hid],
        [⟨wrapHandlerError handlerError, "handler-failure", .hf error context extraInfo⟩,
         ⟨error, context, .plain extraInfo⟩])
  | none => .ok ([], [⟨error, context, .plain extraInfo⟩])

/-- A date value as produced by `new Date(x)`: either a valid instant or an
invalid date (whose comparisons are all false). -/
inductive DateV where
  | valid (t : Int)
  | invalid
deriving DecidableEq, Repr

/-- Comparison `new Date(a) > new Date(b)`: true only when both dates are valid and `a`
is strictly later. -/
def dateGt : DateV → DateV → Bool
  | .valid a, .valid b => decide (b < a)
  | _, _ => false

/-- A parsed JSON body: a payload identity, its JavaScript truthiness, and
its `updatedAt` field (`none` when the field is absent or falsy). -/
structure JsonBody where
  tag : Nat
  isTruthy : Bool := true
  updatedAt : Option DateV := none
deriving DecidableEq, Repr

/-- An opaque header map identity. -/
structure Headers where
  hid : Nat
deriving DecidableEq, Repr

/-- A transport response: status, headers, and the outcome of
`response.json()` (which may reject on an unparseable body). -/
structure HttpResponse where
  status : Nat
  headers : Headers
  json : Except JsError JsonBody

/-- Computation of `response.ok`: status in the inclusive range 200-299. -/
def HttpResponse.ok (r : HttpResponse) : Bool :=
  decide (200 ≤ r.status) && decide (r.status ≤ 299)

/-- One behaviour of the underlying transport for one issued call: the
`fetch` promise either rejects (network failure, or the timeout's abort
surfacing as an `AbortError`) or resolves to a response. -/
inductive TransportResult where
  | thrown (e : JsError)
  | respond (r : HttpResponse)

/-- The conflict-resolution strategies. -/
inductive ConflictStrategy where
  | serverWins
  | clientWins
  | timestamp
deriving DecidableEq, Repr

/-- Options record `SafeFetchOptions`: all fields optional; `none` means the caller did not
supply the option and the engine's default applies after the merge with
`SafeFetch.defaultOptions`.  `body` carries the client-sent body together
with the outcome of `JSON.parse` on it. -/
structure SafeFetchOptions where
  retryCount : Option Nat := none
  retryDelay : Option Nat := none
  timeout : Option Nat := none
  fallbackData : Option JsonBody := none
  fallbackUrl : Option String := none
  conflictResolution : Option ConflictStrategy := none
  body : Option (Except JsError JsonBody) := none

/-- Result record `SafeFetchResponse`: the engine's terminal result value. -/
structure SafeFetchResponse where
  data : Option JsonBody
  error : Option JsError
  status : Option Nat
  headers : Option Headers
deriving DecidableEq, Repr

/-- The engine's local mutable state: the `lastError`/`lastStatus`/
`lastHeaders` variables, the index of the next transport call (so `k` after
a run counts the calls issued), the `ExceptionLogger.log` calls made
(error and context label), and the backoff delays awaited, in order. -/
structure FetchSt where
  lastError : Option JsError
  lastStatus : Option Nat
  lastHeaders : Option Headers
  k : Nat
  events : List (JsError × String)
  delays : List Nat
deriving Repr

/-- The `new Error("HTTP error! status: " + status)` object built for a
non-success response. -/
def httpError (status : Nat) : JsError :=
  ⟨"Error", "Error", "HTTP error! status: " ++ toString status⟩

/-- The `timestamp` arm of `handleConflict`: when both bodies are truthy and
both carry a truthy `updatedAt`, pick the chronologically newer body
(client only on a strictly newer, valid comparison); otherwise the server
body. -/
def timestampPick (clientData : Option JsonBody) (serverData : JsonBody) : JsonBody :=
  match clientData with
  | some c =>
    if c.isTruthy && serverData.isTruthy then
      match c.updatedAt, serverData.updatedAt with
      | some cu, some su => if dateGt cu su then c else serverData
      | _, _ => serverData
    else serverData
  | none => serverData

/-- The `try` block of `SafeFetch.handleConflict`.  The outer `Except` is
the clause's own catch (`.error` = caught there, carrying the call counter);
the inner `Except` is the state of the value the block returns: in the
`client-wins` arm the block returns the `clientResponse.json()` promise
directly, so a rejection of that promise is adopted by `handleConflict`'s
own promise and is NOT caught by this clause. -/
def handleConflictCore (transport : Nat → TransportResult) (k : Nat)
    (strategy : ConflictStrategy) (clientBody : Option (Except JsError JsonBody))
    (resp : HttpResponse) : Except (JsError × Nat) (Except JsError (Option JsonBody) × Nat) :=
  match resp.json with
  | .error e => .error (e, k)
  | .ok serverData =>
    match (match clientBody with
           | none => Except.ok none
           | some (.error e) => Except.error (e, k)
           | some (.ok c) => Except.ok (some c) :
           Except (JsError × Nat) (Option JsonBody)) with
    | .error ek => .error ek
    | .ok clientData =>
      match strategy with
      | .serverWins => .ok (.ok (some serverData), k)
      | .clientWins =>
        match transport k with
        | .thrown e => .error (e, k + 1)
        | .respond cr =>
          if cr.ok then .ok (cr.json.map some, k + 1) else .ok (.ok none, k + 1)
      | .timestamp => .ok (.ok (some (timestampPick clientData serverData)), k)

/-- Model of `SafeFetch.handleConflict`: run the core and apply its catch clause,
which logs one `safe-fetch-conflict` record and resolves to `undefined`.
The first component is the state of the promise the caller awaits. -/
def handleConflict (transport : Nat → TransportResult) (k : Nat)
    (strategy : ConflictStrategy) (clientBody : Option (Except JsError JsonBody))
    (resp : HttpResponse) :
    Except JsError (Option JsonBody) × List (JsError × String) × Nat :=
  match handleConflictCore transport k strategy clientBody resp with
  | .error (e, k') => (.ok none, [(e, "safe-fetch-conflict")], k')
  | .ok (res, k') => (res, [], k')

/-- The `try` block of one iteration of the attempt loop of
`SafeFetch.fetch`.  `.error` is a rejection reaching the iteration's catch
clause, carrying the state as already mutated; `.ok (some r, st)` is a
`return r` out of the whole engine; `.ok (none, st)` falls through to the
retry bookkeeping with `lastError` set to the HTTP-error object. -/
def tryBody (transport : Nat → TransportResult) (strategy : ConflictStrategy)
    (clientBody : Option (Except JsError JsonBody)) (st : FetchSt) :
    Except (JsError × FetchSt) (Option SafeFetchResponse × FetchSt) :=
  match transport st.k with
  | .thrown e => .error (e, { st with k := st.k + 1 })
  | .respond resp =>
    let st := { st with k := st.k + 1,
                        lastStatus := some resp.status, lastHeaders := some resp.headers }
    if resp.ok then
      match resp.json with
      | .error e => .error (e, st)
      | .ok d => .ok (some ⟨some d, none, some resp.status, some resp.headers⟩, st)
    else if resp.status = 409 then
      match handleConflict transport st.k strategy clientBody resp with
      | (res, evs, k') =>
        let st := { st with k := k', events := st.events ++ evs }
        match res with
        | .error e => .error (e, st)
        | .ok (some d) => .ok (some ⟨some d, none, some 200, some resp.headers⟩, st)
        | .ok none =>
          .ok (none, { st with lastError := some (httpError resp.status) })
    else
      .ok (none, { st with lastError := some (httpError resp.status) })

/-- The catch clause of the attempt loop: record `lastError` and log the
failure under context `safe-fetch`. -/
def catchClause (e : JsError) (st : FetchSt) : FetchSt :=
  { st with lastError := some e, events := st.events ++ [(e, "safe-fetch")] }

/-- One loop iteration: the `try` block guarded by its catch clause. -/
def loopStep (transport : Nat → TransportResult) (strategy : ConflictStrategy)
    (clientBody : Option (Except JsError JsonBody)) (st : FetchSt) :
    Except JsError (Option SafeFetchResponse × FetchSt) :=
  match tryBody transport strategy clientBody st with
  | .ok r => .ok r
  | .error (e, st') => .ok (none, catchClause e st')

/-- The attempt loop `while (attempt <= retryCount)`, by fuel: `n` is the
number of iterations still to run (`retryCount + 1 - attempt`) and
`attempt` the source's 0-based counter.  After a fall-through iteration the
counter is incremented and, when attempts remain, the backoff delay
`retryDelay * 2 ^ (attempt - 1)` is awaited. -/
def fetchLoop (transport : Nat → TransportResult) (strategy : ConflictStrategy)
    (clientBody : Option (Except JsError JsonBody)) (retryCount retryDelay : Nat) :
    Nat → Nat → FetchSt → Except JsError (Option SafeFetchResponse × FetchSt)
  | 0, _, st => .ok (none, st)
  | n + 1, attempt, st =>
    match loopStep transport strategy clientBody st with
    | .error e => .error e
    | .ok (some r, st') => .ok (some r, st')
    | .ok (none, st') =>
      let a := attempt + 1
      let st'' :=
        if a ≤ retryCount then
          { st' with delays := st'.delays ++ [retryDelay * 2 ^ (a - 1)] }
        else st'
      fetchLoop transport strategy clientBody retryCount retryDelay n a st''

/-- The fallback-URL stage: one guarded extra call when a non-empty
`fallbackUrl` is configured.  A failure is logged under
`safe-fetch-fallback` and leaves `lastError`/`lastStatus`/`lastHeaders`
untouched; a non-ok response is silently dropped. -/
def fallbackStep (transport : Nat → TransportResult) (options : SafeFetchOptions)
    (st : FetchSt) : Except JsError (Option SafeFetchResponse × FetchSt) :=
  match options.fallbackUrl with
  | none => .ok (none, st)
  | some u =>
    if u = "" then .ok (none, st)
    else
      match transport st.k with
      | .thrown e =>
        .ok (none, { st with k := st.k + 1, events := st.events ++ [(e, "safe-fetch-fallback")] })
      | .respond resp =>
        let st := { st with k := st.k + 1 }
        if resp.ok then
          match resp.json with
          | .error e => .ok (none, { st with events := st.events ++ [(e, "safe-fetch-fallback")] })
          | .ok d => .ok (some ⟨some d, none, some resp.status, some resp.headers⟩, st)
        else .ok (none, st)

namespace SafeFetch

/-- Model of `SafeFetch.fetch`.  The transport abstracts `fetch` itself, indexed by
the number of calls issued so far (primary attempts, the `client-wins`
re-issue and the fallback call all draw from it).  The merge with
`defaultOptions` fills each unset option with its default (`retryCount = 3`,
`retryDelay = 1000`, `conflictResolution = timestamp`).  A top-level
`.error` would be an exception raised to the engine's caller. -/
def fetch (transport : Nat → TransportResult) (options : SafeFetchOptions) :
    Except JsError (SafeFetchResponse × FetchSt) :=
  let retryCount := options.retryCount.getD 3
  let retryDelay := options.retryDelay.getD 1000
  let strategy := options.conflictResolution.getD .timestamp
  let st0 : FetchSt := ⟨none, none, none, 0, [], []⟩
  match fetchLoop transport strategy options.body retryCount retryDelay (retryCount + 1) 0 st0 with
  | .error e => .error e
  | .ok (some r, st) => .ok (r, st)
  | .ok (none, st) =>
    match fallbackStep transport options st with
    | .error e => .error e
    | .ok (some r, st') => .ok (r, st')
    | .ok (none, st') =>
      match options.fallbackData with
      | some d => .ok (⟨some d, st'.lastError, st'.lastStatus, st'.lastHeaders⟩, st')
      | none => .ok (⟨none, st'.lastError, st'.lastStatus, st'.lastHeaders⟩, st')

end SafeFetch

/-- A transport call outcome on which an attempt of the loop fails and
retries: a rejection, or a response that is neither ok nor a 409. -/
def Failing : TransportResult → Prop
  | .thrown _ => True
  | .respond r => r.ok = false ∧ r.status ≠ 409

/-- The failure such an attempt records in `lastError`: the thrown error, or
the synthesized `HTTP error!` object. -/
def attemptFailErr : TransportResult → JsError
  | .thrown e => e
  | .respond r => httpError r.status

/-- A concrete network failure used as witness input. -/
def errDown : JsError := ⟨"Error", "Error", "connection reset"⟩

/-- A transport that rejects every call. -/
def transportDown : Nat → TransportResult := fun _ => .thrown errDown

/-- Witness options: `retryCount = 2`, `retryDelay = 5`. -/
def optsRetry : SafeFetchOptions := { retryCount := some 2, retryDelay := some 5 }

/-- A concrete fallback payload. -/
def fbBody : JsonBody := { tag := 7 }

/-- Witness options: `retryCount = 1` with fallback data configured. -/
def optsFallback : SafeFetchOptions := { retryCount := some 1, fallbackData := some fbBody }

/-- Witness options for the claim's displayed call `fetch(url, {fallbackData: D})`:
only fallback data configured, `retryCount` left to its default of 3. -/
def optsFbOnly : SafeFetchOptions := { fallbackData := some fbBody }

/-- Witness options with fallback data and a configured fallback URL (whose
attempt will also fail). -/
def optsFbUrl : SafeFetchOptions :=
  { fallbackData := some fbBody, fallbackUrl := some "https://backup.example.com" }

/-- A server 409 body stamped `updatedAt = 10`. -/
def serverBody409 : JsonBody := { tag := 1, updatedAt := some (.valid 10) }

/-- A client body stamped `updatedAt = 20` (newer than the server's). -/
def clientBody409 : JsonBody := { tag := 2, updatedAt := some (.valid 20) }

/-- A 409 response whose body parses to `serverBody409`. -/
def resp409 : HttpResponse := { status := 409, headers := ⟨3⟩, json := .ok serverBody409 }

/-- A transport that answers every call with the 409 response. -/
def transport409 : Nat → TransportResult := fun _ => .respond resp409

/-- Witness options carrying the client body. -/
def opts409 : SafeFetchOptions := { body := some (.ok clientBody409) }

/-- A server 409 body with no `updatedAt` field. -/
def serverBodyNoTs : JsonBody := { tag := 4 }

/-- A client body with no `updatedAt` field. -/
def clientBodyNoTs : JsonBody := { tag := 6 }

/-- A 409 response whose body parses to `serverBodyNoTs`. -/
def resp409b : HttpResponse := { status := 409, headers := ⟨5⟩, json := .ok serverBodyNoTs }

/-- A transport that answers every call with the timestamp-free 409 response. -/
def transport409b : Nat → TransportResult := fun _ => .respond resp409b

/-- Witness options carrying the timestamp-free client body. -/
def opts409b : SafeFetchOptions := { body := some (.ok clientBodyNoTs) }

/-- A handler that always returns normally. -/
def okHandler : HandlerFn := ⟨7, fun _ _ _ => none⟩

/-- The error a failing witness handler raises. -/
def throwErr : JsError := ⟨"Error", "Error", "boom"⟩

/-- A handler that always raises `throwErr`. -/
def badHandler : HandlerFn := ⟨9, fun _ _ _ => some throwErr⟩

/-- An error with an unregistered constructor whose message classifies as
`NETWORK_ERROR`. -/
def errNetMsg : JsError := ⟨"FooError", "FooError", "network down"⟩

/-- A `TypeError` instance. -/
def errTypeNull : JsError := ⟨"TypeError", "TypeError", "Cannot read property of null"⟩

/-- A registry with only a kind-level handler for `NETWORK_ERROR`. -/
def regKindOnly : RegMap := [(.typeKey .NETWORK_ERROR, ⟨okHandler, "medium"⟩)]

/-- A registry with a throwing constructor-level handler for `TypeError`. -/
def regCtorThrow : RegMap := [(.ctorKey "TypeError", ⟨badHandler, "high"⟩)]

/-- A registry with a succeeding constructor-level handler for `TypeError`. -/
def regCtorOk : RegMap := [(.ctorKey "TypeError", ⟨okHandler, "medium"⟩)]

/-- Numbered witness errors for log-eviction runs. -/
def wErr (n : Nat) : JsError := ⟨"Error", "Error", toString n⟩

lemma loopStep_failing (tr : Nat → TransportResult) (strat : ConflictStrategy)
    (cbody : Option (Except JsError JsonBody)) (st : FetchSt) (h : Failing (tr st.k)) :
    ∃ st', loopStep tr strat cbody st = .ok (none, st') ∧
      st'.k = st.k + 1 ∧ st'.lastError = some (attemptFailErr (tr st.k)) ∧
      st'.delays = st.delays := by
  cases htr : tr st.k with
  | thrown e =>
    refine ⟨{ st with k := st.k + 1, lastError := some e, events := st.events ++ [(e, "safe-fetch")] }, ?_, rfl, ?_, rfl⟩
    · simp [loopStep, tryBody, htr, catchClause]
    · rfl
  | respond r =>
    rw [htr] at h
    obtain ⟨hok, h409⟩ := h
    refine ⟨{ st with k := st.k + 1, lastStatus := some r.status, lastHeaders := some r.headers, lastError := some (httpError r.status) }, ?_, rfl, ?_, rfl⟩
    · simp [loopStep, tryBody, htr, hok, h409]
    · rfl

lemma fetchLoop_failing (tr : Nat → TransportResult) (strat : ConflictStrategy)
    (cbody : Option (Except JsError JsonBody)) (rc rd : Nat)
    (hT : ∀ m, Failing (tr m)) :
    ∀ n a st, a + n = rc + 1 → 1 ≤ n →
      ∃ st', fetchLoop tr strat cbody rc rd n a st = .ok (none, st') ∧
        st'.k = st.k + n ∧
        st'.lastError = some (attemptFailErr (tr (st.k + n - 1))) ∧
        st'.delays = st.delays ++ (List.range (n - 1)).map fun i => rd * 2 ^ (a + i) := by
  intro n
  induction n with
  | zero => intro a st _ h1; exact absurd h1 (by omega)
  | succ m ih =>
    intro a st hsum _
    obtain ⟨st1, hstep, hk1, herr1, hdel1⟩ := loopStep_failing tr strat cbody st (hT st.k)
    rcases Nat.eq_zero_or_pos m with hm | hm
    · subst hm
      refine ⟨st1, ?_, by omega, by simpa using herr1, by simpa using hdel1⟩
      simp only [fetchLoop, hstep]
      rw [if_neg (by omega)]
    · obtain ⟨m', rfl⟩ : ∃ m', m = m' + 1 := ⟨m - 1, by omega⟩
      obtain ⟨st', hloop, hk, herr, hdel⟩ :=
        ih (a + 1) { st1 with delays := st1.delays ++ [rd * 2 ^ (a + 1 - 1)] } (by omega) hm
      have hk2 : ({ st1 with delays := st1.delays ++ [rd * 2 ^ (a + 1 - 1)] } : FetchSt).k
          = st.k + 1 := hk1
      refine ⟨st', ?_, ?_, ?_, ?_⟩
      · simp only [fetchLoop, hstep]
        rw [if_pos (by omega)]
        exact hloop
      · rw [hk, hk2]; omega
      · rw [hk2] at herr
        have : st.k + (m' + 1 + 1) - 1 = st.k + 1 + (m' + 1) - 1 := by omega
        rw [this]; exact herr
      · rw [hdel]
        have hd2 : ({ st1 with delays := st1.delays ++ [rd * 2 ^ (a + 1 - 1)] } : FetchSt).delays
            = st.delays ++ [rd * 2 ^ a] := by
          simp [hdel1]
        rw [hd2, List.append_assoc]
        congr 1
        simp only [Nat.add_sub_cancel, List.singleton_append, List.range_succ_eq_map,
          List.map_cons, List.map_map, Nat.add_zero]
        have hfun : (fun i => rd * 2 ^ (a + 1 + i)) =
            ((fun i => rd * 2 ^ (a + i)) ∘ Nat.succ) := by
          funext i
          have hexp : a + 1 + i = a + Nat.succ i := by omega
          simp [Function.comp, hexp]
        rw [hfun]

lemma fetchLoop_ok (tr : Nat → TransportResult) (strat : ConflictStrategy)
    (cbody : Option (Except JsError JsonBody)) (rc rd : Nat) :
    ∀ n a st, ∃ out, fetchLoop tr strat cbody rc rd n a st = .ok out := by
  intro n
  induction n with
  | zero => intro a st; exact ⟨(none, st), rfl⟩
  | succ m ih =>
    intro a st
    rcases hstep : loopStep tr strat cbody st with e | ⟨ro, st'⟩
    · rcases htb : tryBody tr strat cbody st with ⟨e', st''⟩ | v
      · simp [loopStep, htb] at hstep
      · simp [loopStep, htb] at hstep
    · rcases ro with _ | r
      · obtain ⟨out, hrec⟩ := ih (a + 1)
          (if a + 1 ≤ rc then { st' with delays := st'.delays ++ [rd * 2 ^ (a + 1 - 1)] } else st')
        exact ⟨out, by simp only [fetchLoop, hstep]; exact hrec⟩
      · exact ⟨(some r, st'), by simp [fetchLoop, hstep]⟩

lemma fallbackStep_ok (tr : Nat → TransportResult) (opts : SafeFetchOptions) (st : FetchSt) :
    ∃ out, fallbackStep tr opts st = .ok out := by
  unfold fallbackStep
  rcases opts.fallbackUrl with _ | u
  · exact ⟨_, rfl⟩
  · by_cases hu : u = ""
    · simp [hu]
    · simp only [if_neg hu]
      rcases tr st.k with e | resp
      · exact ⟨_, rfl⟩
      · by_cases hok : resp.ok
        · rcases hj : resp.json with e | d <;> simp [hok, hj]
        · simp [hok]

/-- C1: against a transport that rejects every call, `SafeFetch.fetch`
issues exactly `retryCount + 1` primary transport calls (the call counter
of the final state is `retryCount + 1`, and with no fallback URL no
further call is made), and the backoff delays awaited are exactly
`retryDelay * 2 ^ (k - 1)` before retry `k`, i.e. the delay list is
`[retryDelay * 2^0, …, retryDelay * 2^(retryCount-1)]`.  Instantiated at
`retryCount = 2` this is the spec's "exactly 3 underlying calls". -/
theorem retry_attempts_and_backoff (tr : Nat → TransportResult) (err : Nat → JsError)
    (opts : SafeFetchOptions) (rc rd : Nat)
    (hT : ∀ n, tr n = .thrown (err n))
    (hrc : opts.retryCount = some rc) (hrd : opts.retryDelay = some rd)
    (hfu : opts.fallbackUrl = none) :
    ∃ r st, SafeFetch.fetch tr opts = .ok (r, st) ∧ st.k = rc + 1 ∧
      st.delays = (List.range rc).map fun i => rd * 2 ^ i := by
  have hF : ∀ m, Failing (tr m) := fun m => by rw [hT m]; trivial
  obtain ⟨st', hloop, hk, herr, hdel⟩ :=
    fetchLoop_failing tr (opts.conflictResolution.getD .timestamp) opts.body rc rd hF
      (rc + 1) 0 ⟨none, none, none, 0, [], []⟩ (by omega) (by omega)
  have hk' : st'.k = rc + 1 := by simpa using hk
  have hdel' : st'.delays = (List.range rc).map fun i => rd * 2 ^ i := by simpa using hdel
  cases hfd : opts.fallbackData with
  | none =>
    exact ⟨⟨none, st'.lastError, st'.lastStatus, st'.lastHeaders⟩, st',
      by simp [SafeFetch.fetch, hrc, hrd, hloop, fallbackStep, hfu, hfd], hk', hdel'⟩
  | some d =>
    exact ⟨⟨some d, st'.lastError, st'.lastStatus, st'.lastHeaders⟩, st',
      by simp [SafeFetch.fetch, hrc, hrd, hloop, fallbackStep, hfu, hfd], hk', hdel'⟩

/-- Witness for C1: with `retryCount = 2`, `retryDelay = 5` and an
always-rejecting transport, the engine issues exactly 3 calls and waits
`[5, 10]`. -/
theorem retry_attempts_and_backoff_wit :
    ∃ r st, SafeFetch.fetch transportDown optsRetry = .ok (r, st) ∧ st.k = 2 + 1 ∧
      st.delays = (List.range 2).map fun i => 5 * 2 ^ i :=
  retry_attempts_and_backoff transportDown (fun _ => errDown) optsRetry 2 5
    (fun _ => rfl) rfl rfl rfl

/-- C2: for every transport behaviour and every options value,
`SafeFetch.fetch` resolves to a `SafeFetchResponse`: the result is always
`.ok`, never a `.error` (an exception escaping to the caller). -/
theorem fetch_never_throws (tr : Nat → TransportResult) (opts : SafeFetchOptions) :
    ∃ r st, SafeFetch.fetch tr opts = .ok (r, st) := by
  obtain ⟨⟨ro, st'⟩, hloop⟩ := fetchLoop_ok tr (opts.conflictResolution.getD .timestamp)
    opts.body (opts.retryCount.getD 3) (opts.retryDelay.getD 1000)
    (opts.retryCount.getD 3 + 1) 0 ⟨none, none, none, 0, [], []⟩
  cases ro with
  | some r => exact ⟨r, st', by simp [SafeFetch.fetch, hloop]⟩
  | none =>
    obtain ⟨⟨ro2, st2⟩, hfb⟩ := fallbackStep_ok tr opts st'
    cases ro2 with
    | some r => exact ⟨r, st2, by simp [SafeFetch.fetch, hloop, hfb]⟩
    | none =>
      cases hfd : opts.fallbackData with
      | none =>
        exact ⟨⟨none, st2.lastError, st2.lastStatus, st2.lastHeaders⟩, st2,
          by simp [SafeFetch.fetch, hloop, hfb, hfd]⟩
      | some d =>
        exact ⟨⟨some d, st2.lastError, st2.lastStatus, st2.lastHeaders⟩, st2,
          by simp [SafeFetch.fetch, hloop, hfb, hfd]⟩

lemma fallbackStep_failing (tr : Nat → TransportResult) (opts : SafeFetchOptions) (st : FetchSt)
    (h : Failing (tr st.k)) :
    ∃ st2, fallbackStep tr opts st = .ok (none, st2) ∧
      st2.lastError = st.lastError ∧ st2.lastStatus = st.lastStatus ∧
      st2.lastHeaders = st.lastHeaders := by
  unfold fallbackStep
  rcases hfu : opts.fallbackUrl with _ | u
  · exact ⟨st, rfl, rfl, rfl, rfl⟩
  · by_cases hu : u = ""
    · refine ⟨st, ?_, rfl, rfl, rfl⟩
      simp [hu]
    · cases htr : tr st.k with
      | thrown e =>
        refine ⟨{ st with k := st.k + 1, events := st.events ++ [(e, "safe-fetch-fallback")] }, ?_, rfl, rfl, rfl⟩
        simp [hu, htr]
      | respond resp =>
        rw [htr] at h
        obtain ⟨hok, _⟩ := h
        refine ⟨{ st with k := st.k + 1 }, ?_, rfl, rfl, rfl⟩
        simp [hu, htr, hok]

/-- C3: when the transport fails on every call (rejection or non-ok,
non-409 status) — so in particular any configured fallback-URL attempt
fails as well — the result's `data` field is exactly the configured
`fallbackData` (present iff it was configured, absent otherwise), its
`error` field is the failure recorded on the last primary attempt (index
`retryCount`, with `retryCount` defaulting to 3 when the caller did not
set it), and its `status`/`headers` are the loop state's last recorded
values, untouched by the fallback attempt. -/
theorem fallback_data_degraded (tr : Nat → TransportResult) (opts : SafeFetchOptions)
    (hT : ∀ m, Failing (tr m)) :
    ∃ st, SafeFetch.fetch tr opts =
        .ok (⟨opts.fallbackData, some (attemptFailErr (tr (opts.retryCount.getD 3))),
              st.lastStatus, st.lastHeaders⟩, st) := by
  obtain ⟨st', hloop, hk, herr, hdel⟩ :=
    fetchLoop_failing tr (opts.conflictResolution.getD .timestamp) opts.body
      (opts.retryCount.getD 3) (opts.retryDelay.getD 1000) hT
      (opts.retryCount.getD 3 + 1) 0 ⟨none, none, none, 0, [], []⟩ (by omega) (by omega)
  have herr' : st'.lastError = some (attemptFailErr (tr (opts.retryCount.getD 3))) := by
    simpa using herr
  obtain ⟨st2, hfb, he2, hs2, hh2⟩ := fallbackStep_failing tr opts st' (hT st'.k)
  refine ⟨st2, ?_⟩
  cases hfd : opts.fallbackData with
  | none => simp [SafeFetch.fetch, hloop, hfb, hfd, he2, herr']
  | some d => simp [SafeFetch.fetch, hloop, hfb, hfd, he2, herr']

/-- Witness for C3: the claim's own call shape — only `fallbackData`
configured, `retryCount` left to its default — against an always-rejecting
transport carries the fallback payload and the last failure
simultaneously, and so does a run with an additionally configured (and
also failing) fallback URL. -/
theorem fallback_data_degraded_wit :
    (∃ st, SafeFetch.fetch transportDown optsFbOnly =
        .ok (⟨optsFbOnly.fallbackData,
              some (attemptFailErr (transportDown (optsFbOnly.retryCount.getD 3))),
              st.lastStatus, st.lastHeaders⟩, st))
    ∧ (∃ st, SafeFetch.fetch transportDown optsFbUrl =
        .ok (⟨optsFbUrl.fallbackData,
              some (attemptFailErr (transportDown (optsFbUrl.retryCount.getD 3))),
              st.lastStatus, st.lastHeaders⟩, st)) :=
  ⟨fallback_data_degraded transportDown optsFbOnly (fun _ => trivial),
   fallback_data_degraded transportDown optsFbUrl (fun _ => trivial)⟩

lemma ok_of_409 (resp : HttpResponse) (h409 : resp.status = 409) : resp.ok = false := by
  show (decide (200 ≤ resp.status) && decide (resp.status ≤ 299)) = false
  rw [h409]
  decide

lemma timestampPick_server (c s : JsonBody)
    (h : c.updatedAt = none ∨ s.updatedAt = none ∨
         c.updatedAt = some .invalid ∨ s.updatedAt = some .invalid) :
    timestampPick (some c) s = s := by
  unfold timestampPick
  by_cases hb : (c.isTruthy && s.isTruthy) = true
  · rcases h with h | h | h | h
    · simp [hb, h]
    · rcases hcu : c.updatedAt with _ | cu <;> simp [hb, h, hcu]
    · rcases hsu : s.updatedAt with _ | su <;> simp [hb, h, hsu, dateGt]
    · rcases hcu : c.updatedAt with _ | cu
      · simp [hb, hcu]
      · rcases cu with t | _ <;> simp [hb, h, hcu, dateGt]
  · simp [hb]

lemma fetch_conflict_409 (tr : Nat → TransportResult) (opts : SafeFetchOptions)
    (resp : HttpResponse) (pick : JsonBody)
    (htr : tr 0 = .respond resp) (h409 : resp.status = 409)
    (hres : handleConflict tr 1 (opts.conflictResolution.getD .timestamp) opts.body resp =
      (.ok (some pick), [], 1)) :
    SafeFetch.fetch tr opts = .ok (⟨some pick, none, some 200, some resp.headers⟩,
      ⟨none, some resp.status, some resp.headers, 1, [], []⟩) := by
  have hok := ok_of_409 resp h409
  simp [SafeFetch.fetch, fetchLoop, loopStep, tryBody, htr, hok, h409, hres]

/-- C4: on a 409 response under the (default) `timestamp` strategy, when the
client-sent body's `updatedAt` is strictly newer than the server body's,
conflict resolution yields the client body and `SafeFetch.fetch` returns it
at once as a synthesized success with status forced to 200, one transport
call and no backoff; when either `updatedAt` is absent or not a comparable
(valid) date, resolution yields the server body instead, again returned
immediately as a synthesized 200 success. -/
theorem conflict_timestamp_resolution (tr : Nat → TransportResult) (opts : SafeFetchOptions)
    (resp : HttpResponse) (server client : JsonBody) (t1 t2 : Int)
    (hstrat : opts.conflictResolution.getD .timestamp = .timestamp)
    (hbody : opts.body = some (.ok client))
    (htr : tr 0 = .respond resp)
    (h409 : resp.status = 409)
    (hjson : resp.json = .ok server) :
    (client.isTruthy = true → server.isTruthy = true →
      client.updatedAt = some (.valid t2) → server.updatedAt = some (.valid t1) → t1 < t2 →
      ∃ st, SafeFetch.fetch tr opts = .ok (⟨some client, none, some 200, some resp.headers⟩, st)
        ∧ st.k = 1 ∧ st.delays = [])
    ∧ ((client.updatedAt = none ∨ server.updatedAt = none ∨
        client.updatedAt = some .invalid ∨ server.updatedAt = some .invalid) →
      ∃ st, SafeFetch.fetch tr opts = .ok (⟨some server, none, some 200, some resp.headers⟩, st)
        ∧ st.k = 1 ∧ st.delays = []) := by
  constructor
  · intro hct hst hcu hsu hlt
    have hpick : timestampPick (some client) server = client := by
      have hgt : dateGt (.valid t2) (.valid t1) = true := by simp [dateGt, hlt]
      simp [timestampPick, hct, hst, hcu, hsu, hgt]
    have hres : handleConflict tr 1 (opts.conflictResolution.getD .timestamp) opts.body resp =
        (.ok (some client), [], 1) := by
      simp [handleConflict, handleConflictCore, hjson, hbody, hstrat, hpick]
    exact ⟨⟨none, some resp.status, some resp.headers, 1, [], []⟩,
      fetch_conflict_409 tr opts resp client htr h409 hres, rfl, rfl⟩
  · intro hmiss
    have hpick : timestampPick (some client) server = server := timestampPick_server _ _ hmiss
    have hres : handleConflict tr 1 (opts.conflictResolution.getD .timestamp) opts.body resp =
        (.ok (some server), [], 1) := by
      simp [handleConflict, handleConflictCore, hjson, hbody, hstrat, hpick]
    exact ⟨⟨none, some resp.status, some resp.headers, 1, [], []⟩,
      fetch_conflict_409 tr opts resp server htr h409 hres, rfl, rfl⟩

/-- Witness for C4: a 409 with server stamp 10 and client stamp 20 resolves
to the client body as an immediate 200 success; a 409 with no stamps on
either body resolves to the server body. -/
theorem conflict_timestamp_resolution_wit :
    (∃ st, SafeFetch.fetch transport409 opts409 =
        .ok (⟨some clientBody409, none, some 200, some resp409.headers⟩, st)
      ∧ st.k = 1 ∧ st.delays = [])
    ∧ (∃ st, SafeFetch.fetch transport409b opts409b =
        .ok (⟨some serverBodyNoTs, none, some 200, some resp409b.headers⟩, st)
      ∧ st.k = 1 ∧ st.delays = []) :=
  ⟨(conflict_timestamp_resolution transport409 opts409 resp409 serverBody409 clientBody409
      10 20 rfl rfl rfl rfl rfl).1 rfl rfl rfl rfl (by decide),
   (conflict_timestamp_resolution transport409b opts409b resp409b serverBodyNoTs clientBodyNoTs
      0 0 rfl rfl rfl rfl rfl).2 (Or.inl rfl)⟩

/-- C5: registry dispatch looks up the concrete constructor key first — if
that lookup succeeds its handler (and only it) is invoked, regardless of any
kind-level entry — and only on a miss is the exception classified and the
kind-level handler looked up and invoked. -/
theorem dispatch_lookup_precedence (m : RegMap) (error : JsError) (ctx : String)
    (ex : Option Nat) (h : HandlerFn) :
    (getHandler m (.ctorKey error.ctor) = some h →
      ∃ evs, registryHandleException m error ctx ex = .ok ([h.hid], evs))
    ∧ (getHandler m (.ctorKey error.ctor) = none →
       getHandler m (.typeKey (mapErrorToExceptionType error)) = some h →
      ∃ evs, registryHandleException m error ctx ex = .ok ([h.hid], evs)) := by
  constructor
  · intro hc
    rcases hi : invokeHandler h error ctx ex with he | u
    · exact ⟨[⟨wrapHandlerError he, "handler-failure", .hf error ctx ex⟩],
        by simp [registryHandleException, hc, hi]⟩
    · exact ⟨[], by simp [registryHandleException, hc, hi]⟩
  · intro hc hk
    rcases hi : invokeHandler h error ctx ex with he | u
    · exact ⟨[⟨wrapHandlerError he, "handler-failure", .hf error ctx ex⟩],
        by simp [registryHandleException, hc, hk, hi]⟩
    · exact ⟨[], by simp [registryHandleException, hc, hk, hi]⟩

/-- Witness for C5: an error with unregistered constructor `FooError` whose
message classifies as `NETWORK_ERROR` is dispatched to the kind-level
handler (id 7). -/
theorem dispatch_lookup_precedence_wit :
    ∃ evs, registryHandleException regKindOnly errNetMsg "ctx" none = .ok ([7], evs) :=
  (dispatch_lookup_precedence regKindOnly errNetMsg "ctx" none okHandler).2 rfl rfl

/-- C6: a handler that raises during registry dispatch never propagates past
`handleException` (the result is `.ok`, not a `.error` escaping to the
caller), is invoked exactly once (no re-entry into dispatch), and produces
exactly one log record, with context `handler-failure`, whose payload
carries the original exception, context and extra info. -/
theorem handler_failure_isolated (m : RegMap) (error : JsError) (ctx : String) (ex : Option Nat)
    (h : HandlerFn) (he : JsError)
    (hfound : getHandler m (.ctorKey error.ctor) = some h ∨
      (getHandler m (.ctorKey error.ctor) = none ∧
       getHandler m (.typeKey (mapErrorToExceptionType error)) = some h))
    (hthrow : h.throwsOn error ctx ex = some he) :
    registryHandleException m error ctx ex =
      .ok ([h.hid], [⟨wrapHandlerError he, "handler-failure", .hf error ctx ex⟩]) := by
  have hi : invokeHandler h error ctx ex = .error he := by simp [invokeHandler, hthrow]
  rcases hfound with hc | ⟨hc, hk⟩
  · simp [registryHandleException, hc, hi]
  · simp [registryHandleException, hc, hk, hi]

/-- Witness for C6: the throwing `TypeError` handler (id 9) yields exactly
one `handler-failure` record and a normal return. -/
theorem handler_failure_isolated_wit :
    registryHandleException regCtorThrow errTypeNull "c" none =
      .ok ([9], [⟨wrapHandlerError throwErr, "handler-failure", .hf errTypeNull "c" none⟩]) :=
  handler_failure_isolated regCtorThrow errTypeNull "c" none badHandler throwErr (Or.inl rfl) rfl

/-- C7 counterexample: dispatching a `TypeError` through the interceptor
when its concrete-discriminator handler succeeds produces an EMPTY list of
log writes — the claim that every dispatched exception results in a log
write by the time dispatch returns is false on the code, which `return`s
right after a successful handler, skipping the default log. -/
theorem dispatch_always_logs_cex :
    interceptorHandleException regCtorOk errTypeNull "ctx" none = .ok ([7], []) := rfl

/-- C7 amended: interceptor dispatch writes to the log except when a
concrete-discriminator handler runs successfully (then it returns with no
write); a failing handler yields a `handler-failure` record followed by the
original exception's record; with no handler the exception falls through to
direct logging with no special wrapping. -/
theorem interceptor_logging_amended (m : RegMap) (error : JsError) (ctx : String)
    (ex : Option Nat) :
    (∀ h, getHandler m (.ctorKey error.ctor) = some h → h.throwsOn error ctx ex = none →
      interceptorHandleException m error ctx ex = .ok ([h.hid], []))
    ∧ (∀ h he, getHandler m (.ctorKey error.ctor) = some h → h.throwsOn error ctx ex = some he →
      interceptorHandleException m error ctx ex =
        .ok ([h.hid], [⟨wrapHandlerError he, "handler-failure", .hf error ctx ex⟩,
                       ⟨error, ctx, .plain ex⟩]))
    ∧ (getHandler m (.ctorKey error.ctor) = none →
      interceptorHandleException m error ctx ex = .ok ([], [⟨error, ctx, .plain ex⟩])) := by
  refine ⟨?_, ?_, ?_⟩
  · intro h hc ht
    simp [interceptorHandleException, hc, invokeHandler, ht]
  · intro h he hc ht
    simp [interceptorHandleException, hc, invokeHandler, ht]
  · intro hc
    simp [interceptorHandleException, hc]

/-- Witness for C7's amended claim: the throwing handler path writes the
`handler-failure` record and then the original exception's record. -/
theorem interceptor_logging_amended_wit :
    interceptorHandleException regCtorThrow errTypeNull "ctx" none =
      .ok ([9], [⟨wrapHandlerError throwErr, "handler-failure", .hf errTypeNull "ctx" none⟩,
                 ⟨errTypeNull, "ctx", .plain none⟩]) :=
  (interceptor_logging_amended regCtorThrow errTypeNull "ctx" none).2.1 badHandler throwErr rfl rfl

lemma logAll_fill : ∀ (ps : List (JsError × String)) (st : ExceptionLogger.State),
    st.logEntries.length + ps.length ≤ st.maxLogEntries →
    (ExceptionLogger.logAll st ps).logEntries = st.logEntries ++ ExceptionLogger.entriesOf ps ∧
    (ExceptionLogger.logAll st ps).maxLogEntries = st.maxLogEntries := by
  intro ps
  induction ps with
  | nil => intro st _; simp [ExceptionLogger.logAll, ExceptionLogger.entriesOf]
  | cons p ps ih =>
    intro st hle
    simp only [List.length_cons] at hle
    have hc : ¬ ((st.logEntries ++
        [(⟨p.1, determineExceptionType p.1, p.2⟩ : ExceptionLogger.LogEntry)]).length >
        st.maxLogEntries) := by
      simp only [List.length_append, List.length_singleton]
      omega
    have hlog : ExceptionLogger.log st p.1 p.2 =
        { st with logEntries :=
            st.logEntries ++ [⟨p.1, determineExceptionType p.1, p.2⟩] } := by
      simp only [ExceptionLogger.log]
      rw [if_neg hc]
    have hstep : ExceptionLogger.logAll st (p :: ps) =
        ExceptionLogger.logAll (ExceptionLogger.log st p.1 p.2) ps := rfl
    rw [hstep, hlog]
    obtain ⟨h1, h2⟩ := ih { st with logEntries :=
      st.logEntries ++ [⟨p.1, determineExceptionType p.1, p.2⟩] }
      (by simp only [List.length_append, List.length_singleton]; omega)
    refine ⟨?_, h2⟩
    rw [h1]
    simp [ExceptionLogger.entriesOf, List.append_assoc]

/-- C8: the exception log is a FIFO buffer capped at `maxLogEntries`
(default 1000): every write preserves the bound, and a write into a full
buffer evicts exactly the oldest record, leaving the cap-many most recent
records ordered most-recent-last. -/
theorem log_eviction_fifo :
    (∀ (st : ExceptionLogger.State) (e : JsError) (c : String),
        st.logEntries.length ≤ st.maxLogEntries →
        (ExceptionLogger.log st e c).logEntries.length ≤ st.maxLogEntries)
    ∧ ExceptionLogger.initState.maxLogEntries = 1000
    ∧ (∀ (cap : Nat) (ps : List (JsError × String)) (e : JsError) (c : String),
        ps.length = cap → 0 < cap →
        (ExceptionLogger.log (ExceptionLogger.logAll ⟨[], cap⟩ ps) e c).logEntries =
          (ExceptionLogger.entriesOf ps).drop 1 ++ [⟨e, determineExceptionType e, c⟩] ∧
        (ExceptionLogger.log (ExceptionLogger.logAll ⟨[], cap⟩ ps) e c).logEntries.length = cap) := by
  refine ⟨?_, rfl, ?_⟩
  · intro st e c hle
    simp only [ExceptionLogger.log]
    split_ifs with hgt
    · simp only [List.length_drop, List.length_append, List.length_singleton]
      omega
    · simp only [List.length_append, List.length_singleton] at hgt ⊢
      omega
  · intro cap ps e c hlen hpos
    obtain ⟨h1, h2⟩ := logAll_fill ps ⟨[], cap⟩ (by simp [hlen])
    simp only [List.nil_append] at h1
    have hlenE : (ExceptionLogger.entriesOf ps).length = cap := by
      simp [ExceptionLogger.entriesOf, hlen]
    have hgt : (ExceptionLogger.entriesOf ps ++
        [(⟨e, determineExceptionType e, c⟩ : ExceptionLogger.LogEntry)]).length > cap := by
      simp only [List.length_append, List.length_singleton, hlenE]
      omega
    constructor
    · simp only [ExceptionLogger.log, h1, h2]
      rw [if_pos (by simpa using hgt)]
      exact List.drop_append_of_le_length (by omega)
    · simp only [ExceptionLogger.log, h1, h2]
      rw [if_pos (by simpa using hgt)]
      simp only [List.length_drop, List.length_append, List.length_singleton, hlenE]
      omega

/-- Witness for C8: with cap 3, writing a fourth record evicts the first
and leaves 3 records, most-recent-last. -/
theorem log_eviction_fifo_wit :
    (ExceptionLogger.log
        (ExceptionLogger.logAll ⟨[], 3⟩ [(wErr 0, "a"), (wErr 1, "b"), (wErr 2, "c")])
        (wErr 3) "d").logEntries =
      (ExceptionLogger.entriesOf [(wErr 0, "a"), (wErr 1, "b"), (wErr 2, "c")]).drop 1 ++
        [⟨wErr 3, determineExceptionType (wErr 3), "d"⟩] ∧
    (ExceptionLogger.log
        (ExceptionLogger.logAll ⟨[], 3⟩ [(wErr 0, "a"), (wErr 1, "b"), (wErr 2, "c")])
        (wErr 3) "d").logEntries.length = 3 :=
  log_eviction_fifo.2.2 3 [(wErr 0, "a"), (wErr 1, "b"), (wErr 2, "c")] (wErr 3) "d" rfl
    (by decide)

/-- C9: every exception named `TypeError` whose message contains the
substring `"null"` classifies as `NULL_POINTER` in both classifiers,
whatever else the message contains (the null/undefined test is checked
first; first match wins). -/
theorem classify_typeerror_null (ctor msg : String) (h : strHas msg "null" = true) :
    determineExceptionType ⟨ctor, "TypeError", msg⟩ = .NULL_POINTER ∧
    mapErrorToExceptionType ⟨ctor, "TypeError", msg⟩ = .NULL_POINTER := by
  constructor <;> simp [determineExceptionType, mapErrorToExceptionType, h]

/-- Witness for C9: a message containing both `"null"` and
`"is not a function"` still classifies as `NULL_POINTER`. -/
theorem classify_typeerror_null_wit :
    determineExceptionType ⟨"TypeError", "TypeError", "null is not a function"⟩ = .NULL_POINTER ∧
    mapErrorToExceptionType ⟨"TypeError", "TypeError", "null is not a function"⟩ = .NULL_POINTER :=
  classify_typeerror_null "TypeError" "null is not a function" (by decide)

/-- C10 counterexample: the error named `TypeError` with message
`"memory"` is matched by none of the spec's rules 1-8 and its message
contains `"memory"`, yet the registry's classifier does NOT return
`RESOURCE_ERROR` — both classifiers return `GENERAL_ERROR` (and so agree),
because the source's `TypeError` branch swallows the error before the
memory/DOM test is reached. -/
theorem classifier_rule9_cex :
    matchedByRules1to8 ⟨"TypeError", "TypeError", "memory"⟩ = false ∧
    strHas "memory" "memory" = true ∧
    mapErrorToExceptionType ⟨"TypeError", "TypeError", "memory"⟩ ≠ .RESOURCE_ERROR ∧
    mapErrorToExceptionType ⟨"TypeError", "TypeError", "memory"⟩ =
      determineExceptionType ⟨"TypeError", "TypeError", "memory"⟩ := by
  decide

/-- C10 amended: the two classifiers agree on every exception except those
on which the registry's classifier actually evaluates its final memory/DOM
test (no name-based branch taken — in particular the name is not
`TypeError` — and no earlier substring test matched): exactly there, with a
memory/DOM message, the registry returns `RESOURCE_ERROR` while the log's
classifier returns `GENERAL_ERROR`. -/
theorem classifier_rule9_amended (e : JsError) :
    ((reachesRule9 e = true ∧ (strHas e.message "memory" || strHas e.message "DOM") = true) →
      mapErrorToExceptionType e = .RESOURCE_ERROR ∧ determineExceptionType e = .GENERAL_ERROR)
    ∧ (¬ (reachesRule9 e = true ∧ (strHas e.message "memory" || strHas e.message "DOM") = true) →
      mapErrorToExceptionType e = determineExceptionType e) := by
  constructor
  · rintro ⟨hr, hm⟩
    simp only [reachesRule9, Bool.and_eq_true, Bool.not_eq_true', decide_eq_false_iff_not] at hr
    obtain ⟨⟨⟨⟨⟨⟨⟨⟨h1, h2⟩, h3⟩, h4⟩, h5⟩, h6⟩, h7⟩, h8⟩, h9⟩ := hr
    constructor <;>
      simp [determineExceptionType, mapErrorToExceptionType, h1, h2, h3, h4, h5, h6, h7, h8, h9, hm]
  · intro hn
    by_cases h1 : e.name = "TypeError"
    · simp [determineExceptionType, mapErrorToExceptionType, h1]
    · by_cases h2 : e.name = "RangeError"
      · simp [determineExceptionType, mapErrorToExceptionType, h1, h2]
      · by_cases h3 : e.name = "SyntaxError"
        · simp [determineExceptionType, mapErrorToExceptionType, h1, h2, h3]
        · by_cases h4 : e.name = "ReferenceError"
          · simp [determineExceptionType, mapErrorToExceptionType, h1, h2, h3, h4]
          · by_cases h5 : e.name = "AbortError"
            · simp [determineExceptionType, mapErrorToExceptionType, h1, h2, h3, h4, h5]
            · by_cases h6 : (strHas e.message "fetch" || strHas e.message "network" ||
                  strHas e.message "timeout") = true
              · simp [determineExceptionType, mapErrorToExceptionType, h1, h2, h3, h4, h5, h6]
              · by_cases h7 : strHas e.message "JSON" = true
                · simp [determineExceptionType, mapErrorToExceptionType,
                    h1, h2, h3, h4, h5, h6, h7]
                · have h6' : (strHas e.message "fetch" = false ∧
                      strHas e.message "network" = false) ∧
                      strHas e.message "timeout" = false := by
                    simpa [Bool.or_eq_true, not_or] using h6
                  obtain ⟨⟨hfe, hnw⟩, htm⟩ := h6'
                  have hjs : strHas e.message "JSON" = false := by simpa using h7
                  have hr : reachesRule9 e = true := by
                    simp [reachesRule9, h1, h2, h3, h4, h5, hfe, hnw, htm, hjs]
                  have hm : (strHas e.message "memory" || strHas e.message "DOM") = false := by
                    by_cases hmb : (strHas e.message "memory" || strHas e.message "DOM") = true
                    · exact absurd ⟨hr, hmb⟩ hn
                    · simpa using hmb
                  have hm' : strHas e.message "memory" = false ∧
                      strHas e.message "DOM" = false := by
                    simpa using hm
                  simp [determineExceptionType, mapErrorToExceptionType,
                    h1, h2, h3, h4, h5, h6, h7, hm'.1, hm'.2]

/-- Witness for C10's amended claim: `"out of memory"` under a plain
`Error` name splits the classifiers (registry: `RESOURCE_ERROR`, log:
`GENERAL_ERROR`), and the counterexample's `TypeError`-named input keeps
them agreeing. -/
theorem classifier_rule9_amended_wit :
    (mapErrorToExceptionType ⟨"Error", "Error", "out of memory"⟩ = .RESOURCE_ERROR ∧
     determineExceptionType ⟨"Error", "Error", "out of memory"⟩ = .GENERAL_ERROR) ∧
    mapErrorToExceptionType ⟨"Error", "Error", "all good"⟩ =
      determineExceptionType ⟨"Error", "Error", "all good"⟩ :=
  ⟨(classifier_rule9_amended ⟨"Error", "Error", "out of memory"⟩).1 (by decide),
   (classifier_rule9_amended ⟨"Error", "Error", "all good"⟩).2 (by decide)⟩

end UiSpec
